import Mathlib

/-!
Shallow embedding of `src/spec-test/src/error.rs` from the wain repository:
the unified, position-aware error type for the WAT processing pipeline
(taxonomy `ErrorKind` / `ParseKind`, carrier `Error`, constructor
`parse_error`, mutator `set_file`, the three stage-error conversions, and
the `Display` / `Debug` renderings).

Modelling notes:
- Rust `&'source str` and `Cow` become `String`; `usize` becomes `Nat`;
  `u64` becomes `Nat` (only rendered in decimal, never computed with);
  `Box` is the identity; in-place mutation (`set_file`) becomes a
  functional update.
- The stage error types `LexError`, `ParseError`, `TransformError` and the
  token type `Token` live in the `wain-syntax-text` crate, outside the
  visible sources; they are modelled from the spec as opaque records
  exposing exactly the contract the spec states (source text reference,
  byte offset, and a Display rendering).
- `describe_position` also lives in `wain-syntax-text` and is explicitly
  out of scope for the spec; renderings are therefore parametrised by an
  arbitrary position-describing function `dp : String → Nat → String`.
- The Rust formatter `fmt::Formatter` is modelled as a string accumulator:
  each `write!` appends to it, in source order.
-/

namespace Wain

/-- Modelled from the spec: a token of the WAT lexer (`wain-syntax-text`,
not under the visible sources). The core only ever renders it via its
Display implementation, modelled as the opaque string `msg`. -/
structure Token where
  msg : String
deriving DecidableEq, Repr

/-- Modelled from the spec: the lexer stage error (`wain-syntax-text`, not
under the visible sources). Per the stage-error contract it exposes a
reference to the source text it was processing (`source`), a byte offset
into that text (`offset`), and a Display rendering (`msg`). -/
structure LexError where
  source : String
  offset : Nat
  msg : String
deriving DecidableEq, Repr

/-- Modelled from the spec: the AST-parser stage error (`wain-syntax-text`,
not under the visible sources), exposing the same stage-error contract. -/
structure ParseError where
  source : String
  offset : Nat
  msg : String
deriving DecidableEq, Repr

/-- Modelled from the spec: the WAT-to-WASM transformer stage error
(`wain-syntax-text`, not under the visible sources), exposing the same
stage-error contract. -/
structure TransformError where
  source : String
  offset : Nat
  msg : String
deriving DecidableEq, Repr

/-- Modelled from the spec: Rust std `FromUtf8Error`, opaque to the core
beyond its Display rendering. -/
structure FromUtf8Error where
  msg : String
deriving DecidableEq, Repr

/-- Modelled from the spec: Rust std `ParseIntError`, opaque to the core
beyond its Display rendering. -/
structure ParseIntError where
  msg : String
deriving DecidableEq, Repr

/-- Modelled from the spec: Rust std `ParseFloatError`, opaque to the core
beyond its Display rendering. -/
structure ParseFloatError where
  msg : String
deriving DecidableEq, Repr

/-- Model of Rust std Debug escaping for one character of a path
(tab, newline, carriage return, backslash and double quote are escaped;
other printable characters pass through unchanged). -/
def escapeDebugChar (c : Char) : String :=
  if c = '\t' then "\\t"
  else if c = '\n' then "\\n"
  else if c = '\r' then "\\r"
  else if c = '\\' then "\\\\"
  else if c = '\x22' then "\\\x22"
  else String.singleton c

/-- Model of Rust std Debug formatting of a `PathBuf` (as produced by the
format specifier used at `error.rs` line 132): the path, character-escaped,
surrounded by double quotes. -/
def pathDebug (p : String) : String :=
  "\x22" ++ String.join (p.data.map escapeDebugChar) ++ "\x22"

/-- Embedding of `ParseKind` (`error.rs` lines 15–46): the fine-grained
failure classification. -/
inductive ParseKind where
  | Unexpected (expected : String) (token : Option Token)
  | EndOfFile (expected : String)
  | Utf8Error (err : FromUtf8Error)
  | InvalidStringLiteral (lit : String) (reason : String)
  | InvalidInt (ty : String) (err : ParseIntError)
  | TooSmallInt (ty : String) (digits : Nat)
  | InvalidFloat (ty : String) (err : ParseFloatError)
  | InvalidHexFloat (ty : String)
  | Lex (err : LexError)
  | ParseWat (err : ParseError)
  | Wat2Wasm (err : TransformError)
deriving DecidableEq, Repr

/-- Embedding of `ErrorKind` (`error.rs` lines 11–13): the top-level
classification, currently with the single variant `Parse`. -/
inductive ErrorKind where
  | Parse (k : ParseKind)
deriving DecidableEq, Repr

/-- Embedding of the carrier struct `Error` (`error.rs` lines 48–54).
`prev_error` makes the type recursive, so it is an inductive rather than a
structure; `file` is the path string of the optional `PathBuf`. -/
inductive Error where
  | mk (pos : Nat) (source : String) (kind : ErrorKind)
       (prev_error : Option Error) (file : Option String)

/-- Field accessor for `Error.pos`. -/
def Error.pos : Error → Nat
  | .mk p _ _ _ _ => p

/-- Field accessor for `Error.source`. -/
def Error.source : Error → String
  | .mk _ s _ _ _ => s

/-- Field accessor for `Error.kind`. -/
def Error.kind : Error → ErrorKind
  | .mk _ _ k _ _ => k

/-- Field accessor for `Error.prev_error`. -/
def Error.prev_error : Error → Option Error
  | .mk _ _ _ pe _ => pe

/-- Field accessor for `Error.file`. -/
def Error.file : Error → Option String
  | .mk _ _ _ _ fi => fi

/-- Embedding of `Error::parse_error` (`error.rs` lines 57–65): builds a
fresh error with the given position, source and classification, no chain
and no file. -/
def Error.parse_error (kind : ParseKind) (source : String) (pos : Nat) : Error :=
  .mk pos source (ErrorKind.Parse kind) none none

/-- Embedding of `Error::set_file` (`error.rs` lines 67–69): the in-place
mutation `self.file = Some(p)` as a functional update. -/
def Error.set_file : Error → String → Error
  | .mk pos source kind prev_error _, p => .mk pos source kind prev_error (some p)

/-- Embedding of the `From` conversion generated by `parse_error_from!`
for `LexError` (`error.rs` lines 72–83): extract the stage error's source
and offset, then wrap the stage error verbatim as the `Lex` variant. -/
def Error.from_lex (err : LexError) : Error :=
  Error.parse_error (ParseKind.Lex err) err.source err.offset

/-- Embedding of the `From` conversion generated by `parse_error_from!`
for `ParseError` (`error.rs` lines 72–82, 84). -/
def Error.from_parse_wat (err : ParseError) : Error :=
  Error.parse_error (ParseKind.ParseWat err) err.source err.offset

/-- Embedding of the `From` conversion generated by `parse_error_from!`
for `TransformError` (`error.rs` lines 72–82, 85). -/
def Error.from_wat2wasm (err : TransformError) : Error :=
  Error.parse_error (ParseKind.Wat2Wasm err) err.source err.offset

/-- Embedding of the classification-specific message fragment written by
the `ParseKind` match inside `fmt::Display for Error` (`error.rs` lines
92–125), one equation per match arm, in source order except that the two
`Unexpected` arms are adjacent. -/
def ParseKind.fragment : ParseKind → String
  | .Lex err => "lexer error: " ++ err.msg
  | .ParseWat err => "parse error on parsing WAT module: " ++ err.msg
  | .Wat2Wasm err => "could not transform from WAT to WASM: " ++ err.msg
  | .Unexpected expected none => "unexpected token while " ++ expected ++ " is expected"
  | .Unexpected expected (some token) =>
      "unexpected token " ++ token.msg ++ " while " ++ expected ++ " is expected"
  | .EndOfFile expected => "unxpected EOF while " ++ expected ++ " is expected"
  | .Utf8Error err => "cannot parse text as UTF-8: " ++ err.msg
  | .InvalidStringLiteral lit reason =>
      "invalid string literal \x27" ++ lit ++ "\x27: " ++ reason
  | .InvalidInt ty err => "invalid int literal for " ++ ty ++ ": " ++ err.msg
  | .TooSmallInt ty digits => "-" ++ toString digits ++ " is too small value for " ++ ty
  | .InvalidFloat ty err =>
      "invalid float number literal for " ++ ty ++ ": " ++ err.msg
  | .InvalidHexFloat ty => "invalid hex float number literal for " ++ ty

/-- Separator written before a chained previous error (`error.rs` lines
137–143). -/
def chainSep : String := "\n\nabove error may be caused by below previous error: "

/-- Embedding of `fmt::Display for Error` (`error.rs` lines 87–147).
The formatter is the accumulator `f`; each `write!` appends, in source
order: the classification fragment (the `ErrorKind` match also yields the
stage label payload `doing`), then `" while "` and `doing`, then the
quoted file path when present, then the position description `dp` applied
to `source` and `pos`, then — when a previous error is present — the chain
separator followed by the previous error formatted into the same
accumulator. `dp` stands for `describe_position`, which is outside the
visible sources. -/
def Error.fmtAcc (dp : String → Nat → String) : Error → String → String
  | .mk pos source kind prev_error file, f =>
    let stage := match kind with
      | ErrorKind.Parse k => (f ++ k.fragment, "parsing")
    let f := stage.1
    let doing := stage.2
    let f := f ++ " while " ++ doing
    let f := match file with
      | some path => f ++ " \x27" ++ pathDebug path ++ "\x27"
      | none => f
    let f := f ++ dp source pos
    match prev_error with
    | none => f
    | some prev => Error.fmtAcc dp prev (f ++ chainSep)

/-- Embedding of `fmt::Debug for Error` (`error.rs` lines 149–153): the
Debug implementation delegates to the Display implementation on the same
formatter. -/
def Error.fmtDebugAcc (dp : String → Nat → String) (e : Error) (f : String) : String :=
  Error.fmtAcc dp e f

/-- Rendering an error to a string for human display: formatting into an
empty accumulator. -/
def Error.render (dp : String → Nat → String) (e : Error) : String :=
  Error.fmtAcc dp e ""

/-- Rendering an error to a string for debug output. -/
def Error.renderDebug (dp : String → Nat → String) (e : Error) : String :=
  Error.fmtDebugAcc dp e ""

/-- Everything the Display implementation writes for the error itself,
before any chained previous error: classification fragment, stage label,
optional quoted file path, position description. -/
def Error.renderOwn (dp : String → Nat → String) (e : Error) : String :=
  (match e.kind with | ErrorKind.Parse k => k.fragment)
    ++ " while parsing"
    ++ (match e.file with
        | some path => " \x27" ++ pathDebug path ++ "\x27"
        | none => "")
    ++ dp e.source e.pos

/-- Sample position-describing function, standing in for
`describe_position` in concrete evaluations. -/
def sampleDp : String → Nat → String :=
  fun source pos => " at byte " ++ toString pos ++ " of " ++ source

theorem while_parsing_fold (a : String) :
    a ++ " while " ++ "parsing" = a ++ " while parsing" := by
  rw [String.append_assoc]; rfl

theorem Error.fmtAcc_append (dp : String → Nat → String) :
    ∀ (e : Error) (f : String), Error.fmtAcc dp e f = f ++ Error.fmtAcc dp e ""
  | .mk pos source kind prev_error file, f => by
    cases kind with
    | Parse k =>
      cases prev_error with
      | none =>
        cases file <;> simp [Error.fmtAcc, ← String.append_assoc]
      | some prev =>
        have ih := fun g => Error.fmtAcc_append dp prev g
        cases file with
        | none =>
          simp only [Error.fmtAcc]
          rw [ih (f ++ k.fragment ++ " while " ++ "parsing" ++ dp source pos ++ chainSep),
            ih ("" ++ k.fragment ++ " while " ++ "parsing" ++ dp source pos ++ chainSep)]
          simp [← String.append_assoc]
        | some path =>
          simp only [Error.fmtAcc]
          rw [ih (f ++ k.fragment ++ " while " ++ "parsing" ++ " \x27" ++ pathDebug path
              ++ "\x27" ++ dp source pos ++ chainSep),
            ih ("" ++ k.fragment ++ " while " ++ "parsing" ++ " \x27" ++ pathDebug path
              ++ "\x27" ++ dp source pos ++ chainSep)]
          simp [← String.append_assoc]

theorem Error.render_decomp (dp : String → Nat → String) (e : Error) :
    Error.render dp e = Error.renderOwn dp e ++
      (match e.prev_error with
       | none => ""
       | some p => chainSep ++ Error.render dp p) := by
  cases e with
  | mk pos source kind prev_error file =>
    cases kind with
    | Parse k =>
      cases prev_error with
      | none =>
        cases file <;>
          simp [Error.render, Error.fmtAcc, Error.renderOwn, Error.kind, Error.file,
            Error.source, Error.pos, Error.prev_error, ← String.append_assoc,
            while_parsing_fold]
      | some prev =>
        cases file with
        | none =>
          simp only [Error.render, Error.fmtAcc, Error.renderOwn, Error.kind,
            Error.file, Error.source, Error.pos, Error.prev_error]
          rw [Error.fmtAcc_append dp prev
            ("" ++ k.fragment ++ " while " ++ "parsing" ++ dp source pos ++ chainSep)]
          simp [← String.append_assoc, while_parsing_fold]
        | some path =>
          simp only [Error.render, Error.fmtAcc, Error.renderOwn, Error.kind,
            Error.file, Error.source, Error.pos, Error.prev_error]
          rw [Error.fmtAcc_append dp prev
            ("" ++ k.fragment ++ " while " ++ "parsing" ++ " \x27" ++ pathDebug path
              ++ "\x27" ++ dp source pos ++ chainSep)]
          simp [← String.append_assoc, while_parsing_fold]

/-- Sample chained error used to instantiate theorems with hypotheses: a
fresh error (built by `parse_error`) wrapped as the `prev_error` of a
second error. -/
def sampleInner : Error :=
  Error.parse_error (ParseKind.EndOfFile "an integer") "(module" 7

/-- Sample outer error holding `sampleInner` as its chained predecessor. -/
def sampleChained : Error :=
  Error.mk 5 "(module)" (ErrorKind.Parse (ParseKind.InvalidHexFloat "f32"))
    (some sampleInner) none

/-- Claim C1: each of the three stage-error conversions produces an
`Error` whose `pos` equals the stage error's offset, whose `source` equals
the stage error's source, whose kind is `ErrorKind.Parse` wrapping the
corresponding `ParseKind` variant (`Lex`, `ParseWat`, `Wat2Wasm`) holding
the stage error value verbatim, and whose `prev_error` and `file` are both
`none`. -/
theorem stage_conversion_exact :
    (∀ e : LexError,
      (Error.from_lex e).pos = e.offset ∧
      (Error.from_lex e).source = e.source ∧
      (Error.from_lex e).kind = ErrorKind.Parse (ParseKind.Lex e) ∧
      (Error.from_lex e).prev_error = none ∧
      (Error.from_lex e).file = none) ∧
    (∀ e : ParseError,
      (Error.from_parse_wat e).pos = e.offset ∧
      (Error.from_parse_wat e).source = e.source ∧
      (Error.from_parse_wat e).kind = ErrorKind.Parse (ParseKind.ParseWat e) ∧
      (Error.from_parse_wat e).prev_error = none ∧
      (Error.from_parse_wat e).file = none) ∧
    (∀ e : TransformError,
      (Error.from_wat2wasm e).pos = e.offset ∧
      (Error.from_wat2wasm e).source = e.source ∧
      (Error.from_wat2wasm e).kind = ErrorKind.Parse (ParseKind.Wat2Wasm e) ∧
      (Error.from_wat2wasm e).prev_error = none ∧
      (Error.from_wat2wasm e).file = none) :=
  ⟨fun _ => ⟨rfl, rfl, rfl, rfl, rfl⟩,
   fun _ => ⟨rfl, rfl, rfl, rfl, rfl⟩,
   fun _ => ⟨rfl, rfl, rfl, rfl, rfl⟩⟩

/-- Claim C5: `parse_error` always succeeds and stores exactly the given
position, source and classification (wrapped as `ErrorKind.Parse`), with
no chain and no file. -/
theorem parse_error_exact (k : ParseKind) (source : String) (pos : Nat) :
    (Error.parse_error k source pos).pos = pos ∧
    (Error.parse_error k source pos).source = source ∧
    (Error.parse_error k source pos).kind = ErrorKind.Parse k ∧
    (Error.parse_error k source pos).prev_error = none ∧
    (Error.parse_error k source pos).file = none :=
  ⟨rfl, rfl, rfl, rfl, rfl⟩

/-- Claim C10: `set_file` changes only the `file` field — position,
source, kind and chain are untouched — and a second call overwrites the
first path. -/
theorem set_file_frame (e : Error) (p : String) :
    (e.set_file p).pos = e.pos ∧
    (e.set_file p).source = e.source ∧
    (e.set_file p).kind = e.kind ∧
    (e.set_file p).prev_error = e.prev_error ∧
    (e.set_file p).file = some p ∧
    ∀ q : String, ((e.set_file p).set_file q).file = some q := by
  cases e
  exact ⟨rfl, rfl, rfl, rfl, rfl, fun _ => rfl⟩

/-- Claim C6: the debug rendering and the human-display rendering of an
error are identical, both as complete strings and write-for-write on any
formatter accumulator. -/
theorem debug_display_identical (dp : String → Nat → String) (e : Error) :
    Error.renderDebug dp e = Error.render dp e ∧
    ∀ f : String, Error.fmtDebugAcc dp e f = Error.fmtAcc dp e f :=
  ⟨rfl, fun _ => rfl⟩

/-- Claim C8: rendering is deterministic — rendering the same error value
twice yields identical output. -/
theorem render_deterministic (dp : String → Nat → String) (e₁ e₂ : Error)
    (h : e₁ = e₂) : Error.render dp e₁ = Error.render dp e₂ := by
  rw [h]

/-- Witness for claim C8 at a concrete error value. -/
theorem render_deterministic_witness :
    Error.render sampleDp sampleChained = Error.render sampleDp sampleChained :=
  render_deterministic sampleDp sampleChained sampleChained rfl

/-- Claim C3: the rendered diagnostic of every error is the
classification message, then the literal `" while parsing"`, then — only
when a file path is attached — the quoted path, then the position
description of `pos` against `source`, then — only when a previous error
is present — the chain suffix, in exactly that order. -/
theorem render_structure (dp : String → Nat → String) (e : Error) :
    Error.render dp e =
      (match e.kind with | ErrorKind.Parse k => ParseKind.fragment k)
        ++ " while parsing"
        ++ (match e.file with
            | some path => " \x27" ++ pathDebug path ++ "\x27"
            | none => "")
        ++ dp e.source e.pos
        ++ (match e.prev_error with
            | none => ""
            | some p => "\n\nabove error may be caused by below previous error: "
                ++ Error.render dp p) := by
  obtain ⟨pos, source, kind, prev_error, file⟩ := e
  cases kind
  rw [Error.render_decomp]
  cases prev_error <;> cases file <;>
    simp [Error.renderOwn, chainSep, Error.kind, Error.file, Error.source, Error.pos,
      Error.prev_error, ← String.append_assoc]

/-- Claim C4: when `prev_error` is present, the rendering is the error's
own part followed by the literal separator and the full recursive
rendering of the predecessor; when `prev_error` is absent, the rendering
is exactly the error's own part, so the separator is never emitted. -/
theorem chain_separator (dp : String → Nat → String) (e : Error) :
    (∀ p : Error, e.prev_error = some p →
      Error.render dp e =
        Error.renderOwn dp e
          ++ "\n\nabove error may be caused by below previous error: "
          ++ Error.render dp p) ∧
    (e.prev_error = none → Error.render dp e = Error.renderOwn dp e) := by
  constructor
  · intro p hp
    rw [Error.render_decomp, hp]
    simp [chainSep, ← String.append_assoc]
  · intro hp
    rw [Error.render_decomp, hp]
    simp

/-- Witness for claim C4: the chained sample error renders with the
separator and its predecessor's rendering appended, and the unchained
sample error renders as its own part alone. -/
theorem chain_separator_witness :
    (Error.render sampleDp sampleChained =
      Error.renderOwn sampleDp sampleChained
        ++ "\n\nabove error may be caused by below previous error: "
        ++ Error.render sampleDp sampleInner) ∧
    Error.render sampleDp sampleInner = Error.renderOwn sampleDp sampleInner :=
  ⟨(chain_separator sampleDp sampleChained).1 sampleInner rfl,
   (chain_separator sampleDp sampleInner).2 rfl⟩

/-- Claim C7: rendering an error whose `file` was never set contains no
path segment, and rendering after `set_file` places the quoted path —
exactly one occurrence of the path segment — between the
`" while parsing"` label and the position description. -/
theorem file_path_segment (dp : String → Nat → String) (e : Error) :
    (e.file = none →
      Error.render dp e =
        (match e.kind with | ErrorKind.Parse k => ParseKind.fragment k)
          ++ " while parsing"
          ++ dp e.source e.pos
          ++ (match e.prev_error with
              | none => ""
              | some p => chainSep ++ Error.render dp p)) ∧
    (∀ p : String,
      Error.render dp (e.set_file p) =
        (match e.kind with | ErrorKind.Parse k => ParseKind.fragment k)
          ++ " while parsing"
          ++ " \x27" ++ pathDebug p ++ "\x27"
          ++ dp e.source e.pos
          ++ (match e.prev_error with
              | none => ""
              | some q => chainSep ++ Error.render dp q)) := by
  obtain ⟨pos, source, kind, prev_error, file⟩ := e
  cases kind
  constructor
  · intro hfile
    simp only [Error.file] at hfile
    subst hfile
    rw [Error.render_decomp]
    cases prev_error <;>
      simp [Error.renderOwn, Error.kind, Error.file, Error.source, Error.pos,
        Error.prev_error, ← String.append_assoc]
  · intro p
    rw [Error.render_decomp]
    cases prev_error <;>
      simp [Error.set_file, Error.renderOwn, Error.kind, Error.file, Error.source,
        Error.pos, Error.prev_error, ← String.append_assoc]

/-- Witness for claim C7: the unchained sample error (built by
`parse_error`, so its `file` is `none`) renders without a path segment. -/
theorem file_path_segment_witness :
    Error.render sampleDp sampleInner =
      ParseKind.fragment (ParseKind.EndOfFile "an integer")
        ++ " while parsing"
        ++ sampleDp "(module" 7
        ++ "" :=
  (file_path_segment sampleDp sampleInner).1 rfl

/-- Claim C2: rendering dispatches on the classification to the exact
message templates of the source, one equation per `ParseKind` variant;
since every equation holds for all payload values, changing only the
payload changes only the substituted fields and never the surrounding
wording. All errors here are fresh (built by `parse_error`), so the
rendering is the fragment, the stage label, and the position
description. -/
theorem render_templates (dp : String → Nat → String) :
    (∀ (err : LexError) (source : String) (pos : Nat),
      Error.render dp (Error.parse_error (ParseKind.Lex err) source pos) =
        "lexer error: " ++ err.msg ++ " while parsing" ++ dp source pos) ∧
    (∀ (err : ParseError) (source : String) (pos : Nat),
      Error.render dp (Error.parse_error (ParseKind.ParseWat err) source pos) =
        "parse error on parsing WAT module: " ++ err.msg
          ++ " while parsing" ++ dp source pos) ∧
    (∀ (err : TransformError) (source : String) (pos : Nat),
      Error.render dp (Error.parse_error (ParseKind.Wat2Wasm err) source pos) =
        "could not transform from WAT to WASM: " ++ err.msg
          ++ " while parsing" ++ dp source pos) ∧
    (∀ (expected : String) (token : Token) (source : String) (pos : Nat),
      Error.render dp
          (Error.parse_error (ParseKind.Unexpected expected (some token)) source pos) =
        "unexpected token " ++ token.msg ++ " while " ++ expected ++ " is expected"
          ++ " while parsing" ++ dp source pos) ∧
    (∀ (expected : String) (source : String) (pos : Nat),
      Error.render dp
          (Error.parse_error (ParseKind.Unexpected expected none) source pos) =
        "unexpected token while " ++ expected ++ " is expected"
          ++ " while parsing" ++ dp source pos) ∧
    (∀ (expected : String) (source : String) (pos : Nat),
      Error.render dp (Error.parse_error (ParseKind.EndOfFile expected) source pos) =
        "unxpected EOF while " ++ expected ++ " is expected"
          ++ " while parsing" ++ dp source pos) ∧
    (∀ (err : FromUtf8Error) (source : String) (pos : Nat),
      Error.render dp (Error.parse_error (ParseKind.Utf8Error err) source pos) =
        "cannot parse text as UTF-8: " ++ err.msg ++ " while parsing" ++ dp source pos) ∧
    (∀ (lit reason : String) (source : String) (pos : Nat),
      Error.render dp
          (Error.parse_error (ParseKind.InvalidStringLiteral lit reason) source pos) =
        "invalid string literal \x27" ++ lit ++ "\x27: " ++ reason
          ++ " while parsing" ++ dp source pos) ∧
    (∀ (ty : String) (err : ParseIntError) (source : String) (pos : Nat),
      Error.render dp (Error.parse_error (ParseKind.InvalidInt ty err) source pos) =
        "invalid int literal for " ++ ty ++ ": " ++ err.msg
          ++ " while parsing" ++ dp source pos) ∧
    (∀ (ty : String) (digits : Nat) (source : String) (pos : Nat),
      Error.render dp (Error.parse_error (ParseKind.TooSmallInt ty digits) source pos) =
        "-" ++ toString digits ++ " is too small value for " ++ ty
          ++ " while parsing" ++ dp source pos) ∧
    (∀ (ty : String) (err : ParseFloatError) (source : String) (pos : Nat),
      Error.render dp (Error.parse_error (ParseKind.InvalidFloat ty err) source pos) =
        "invalid float number literal for " ++ ty ++ ": " ++ err.msg
          ++ " while parsing" ++ dp source pos) ∧
    (∀ (ty : String) (source : String) (pos : Nat),
      Error.render dp (Error.parse_error (ParseKind.InvalidHexFloat ty) source pos) =
        "invalid hex float number literal for " ++ ty
          ++ " while parsing" ++ dp source pos) := by
  refine ⟨?_, ?_, ?_, ?_, ?_, ?_, ?_, ?_, ?_, ?_, ?_, ?_⟩ <;>
    · intros
      rw [Error.render_decomp]
      simp [Error.parse_error, Error.renderOwn, ParseKind.fragment, Error.kind,
        Error.file, Error.source, Error.pos, Error.prev_error, ← String.append_assoc]

/-- Claim C9: every error's kind is `ErrorKind.Parse` (the only variant of
`ErrorKind`), and consequently every rendered diagnostic contains the
literal text `" while parsing"`. -/
theorem kind_is_parse_and_label (dp : String → Nat → String) :
    (∀ e : Error, ∃ k : ParseKind, e.kind = ErrorKind.Parse k) ∧
    (∀ e : Error, ∃ pre post : String,
      Error.render dp e = pre ++ " while parsing" ++ post) := by
  constructor
  · intro e
    obtain ⟨pos, source, kind, prev_error, file⟩ := e
    cases kind with
    | Parse k => exact ⟨k, rfl⟩
  · intro e
    refine ⟨(match e.kind with | ErrorKind.Parse k => ParseKind.fragment k),
      (match e.file with
        | some path => " \x27" ++ pathDebug path ++ "\x27"
        | none => "")
        ++ dp e.source e.pos
        ++ (match e.prev_error with
            | none => ""
            | some p => chainSep ++ Error.render dp p), ?_⟩
    rw [Error.render_decomp]
    obtain ⟨pos, source, kind, prev_error, file⟩ := e
    cases kind
    cases prev_error <;> cases file <;>
      simp [Error.renderOwn, Error.kind, Error.file, Error.source, Error.pos,
        Error.prev_error, ← String.append_assoc]

end Wain
